import Mathlib

namespace Hangul

/-!
Shallow embedding of the attendance-tracking application (`app.py`).

Dates and timestamps are modelled as `Nat`; relational rows are records in
lists; machine floats appearing in `app.py` (the ratio, the threshold
comparison, percentage rounding) are modelled with exact rationals `ℚ`,
with Python's `round` (half-to-even) made explicit.  Fallible external
calls (the SMTP transaction inside `send_email`) are modelled with
`SendResult`: `.raised` is a raised exception, `.returned b` is the
function returning `b`.
-/

/-- Row of the `student` table (`class Student`, app.py).
`email` is nullable, `last_notified_at` is a nullable timestamp. -/
structure Student where
  id : Nat
  name : String
  email : Option String
  active : Bool
  last_notified_at : Option Nat
deriving DecidableEq, Repr

/-- Row of the `session` table (`class Session`, app.py): a class day. -/
structure ClassSession where
  id : Nat
  class_date : Nat
deriving DecidableEq, Repr

/-- Row of the `attendance` table (`class Attendance`, app.py). -/
structure Attendance where
  id : Nat
  student_id : Nat
  session_id : Nat
  present : Bool
  timestamp : Nat
deriving DecidableEq, Repr

/-- Database state: the three tables plus auto-increment counters for the
surrogate primary keys. -/
structure DB where
  students : List Student
  sessions : List ClassSession
  attendances : List Attendance
  nextStudentId : Nat
  nextSessionId : Nat
  nextAttendanceId : Nat
deriving DecidableEq, Repr

/-- `DANGER_THRESHOLD = 0.5` (app.py line 77). -/
def DANGER_THRESHOLD : ℚ := 1/2

/-- `present_count` inside `attendance_ratio`: number of Attendance rows of
the student with `present == True`. -/
def presentCount (db : DB) (student_id : Nat) : Nat :=
  (db.attendances.filter (fun a => a.student_id == student_id && a.present)).length

/-- `attendance_ratio(student_id)` (app.py lines 157-166): `1.0` when there
are no sessions, else `present_count / total_sessions`. -/
def attendance_ratio (db : DB) (student_id : Nat) : ℚ :=
  if db.sessions.length = 0 then 1
  else (presentCount db student_id : ℚ) / (db.sessions.length : ℚ)

/-- The attendance uniqueness invariant: at most one Attendance row per
`(student_id, session_id)` pair (the `uniq_attendance` constraint). -/
def attendanceKeysUnique (db : DB) : Prop :=
  db.attendances.Pairwise
    (fun a b => a.student_id ≠ b.student_id ∨ a.session_id ≠ b.session_id)

/-- Referential integrity for attendance rows: each references an existing
session (the foreign key on `session_id`). -/
def attendanceSessionsExist (db : DB) : Prop :=
  ∀ a ∈ db.attendances, ∃ s ∈ db.sessions, s.id = a.session_id

instance (db : DB) : Decidable (attendanceKeysUnique db) := by
  unfold attendanceKeysUnique; infer_instance

instance (db : DB) : Decidable (attendanceSessionsExist db) := by
  unfold attendanceSessionsExist; infer_instance

/-! ## Email (`send_email`, app.py lines 136-154)

The environment variables are bundled in `EmailConfig`; the SMTP
transaction (connect / starttls / login / send) is external and may raise,
which we model with a boolean `smtpOk`: when the transport is configured,
`smtpOk = true` means the transaction succeeds and the function returns
`True`; `smtpOk = false` means it raises (modelled `.raised`).  When any
of the required settings (or the recipient) is falsy the function returns
`False` without touching the network. -/

structure EmailConfig where
  host : Option String
  port : Nat
  user : Option String
  pwd : Option String
  from_email : Option String
deriving DecidableEq, Repr

/-- Python truthiness of an optional string: `None` and `""` are falsy. -/
def truthyS : Option String → Bool
  | none => false
  | some s => s != ""

/-- Outcome of a call to `send_email`: the function either returns a
boolean or lets an SMTP exception propagate. -/
inductive SendResult where
  | returned (b : Bool)
  | raised
deriving DecidableEq, Repr

/-- `send_email(to_email, subject, body)`: `.returned false` when
unconfigured (the early `return False`), `.returned true` on a successful
SMTP transaction, `.raised` when the SMTP transaction raises. -/
def send_email (cfg : EmailConfig) (smtpOk : Bool) (to_email : String) :
    SendResult :=
  let from_email := match cfg.from_email with
    | some v => some v
    | none => cfg.user
  if !(truthyS cfg.host && (cfg.port != 0) && truthyS cfg.user &&
        truthyS cfg.pwd && truthyS from_email && (to_email != "")) then
    SendResult.returned false
  else if smtpOk then SendResult.returned true
  else SendResult.raised

/-! ## Status transition (`check_and_notify_student`, app.py lines 169-187)

The function is modelled as the ordered trace of externally visible events
it performs: each `db.session.commit()` of the mutated student row, and
each call to `send_email`.  When `send_email` raises, the trace stops at
that point (the exception propagates to the caller); everything already
committed stays committed. -/

inductive Event where
  | commit (s : Student)
  | emailSend (rcpt : String) (result : SendResult)
deriving DecidableEq, Repr

/-- Trace of `check_and_notify_student(student)` run against database `db`
at time `now`. -/
def check_and_notify_trace (cfg : EmailConfig) (smtpOk : Bool) (now : Nat)
    (db : DB) (st : Student) : List Event :=
  let ratio := attendance_ratio db st.id
  let is_inactive : Bool := decide (ratio < DANGER_THRESHOLD)
  if is_inactive && st.active then
    -- transition from active -> inactive
    let st1 := { st with active := false }
    if truthyS st1.email then
      let rcpt := st1.email.getD ""
      match send_email cfg smtpOk rcpt with
      | SendResult.raised => [Event.commit st1, Event.emailSend rcpt SendResult.raised]
      | SendResult.returned b =>
          [Event.commit st1, Event.emailSend rcpt (SendResult.returned b),
           Event.commit { st1 with last_notified_at := some now }]
    else [Event.commit st1]
  else if !is_inactive && !st.active then
    -- transition from inactive -> active
    [Event.commit { st with active := true }]
  else []

/-- Committing a mutated student row: the row with that primary key is
replaced by the committed snapshot; an email send does not change the
database. -/
def applyEvent (db : DB) : Event → DB
  | Event.commit s =>
      { db with students := db.students.map fun t => if t.id == s.id then s else t }
  | Event.emailSend _ _ => db

/-- Database after `check_and_notify_student` runs (all commits applied in
order). -/
def check_and_notify_db (cfg : EmailConfig) (smtpOk : Bool) (now : Nat)
    (db : DB) (st : Student) : DB :=
  (check_and_notify_trace cfg smtpOk now db st).foldl applyEvent db

/-- The in-memory student object at the end of the call: the last committed
snapshot (or the unchanged input when nothing was committed). -/
def finalStudent (st : Student) (tr : List Event) : Student :=
  tr.foldl (fun acc e => match e with | Event.commit s => s | _ => acc) st

/-! ## HTTP responses -/

/-- Abstracted responses of the routes the claims are about.
`redirectOk` / `redirectErr` are the check-in redirects carrying a success
or error flash; `redirect` is an admin redirect; `page` renders a
template. -/
inductive Resp where
  | redirectOk (session_id : Nat)
  | redirectErr (session_id : Nat)
  | redirect
  | page
  | notFound
  | forbidden
deriving DecidableEq, Repr

/-! ## Check-in flow (`submit_checkin`, app.py lines 229-259) -/

/-- The POSTed check-in form: `session_id` parsed as int, raw `name` and
`email` fields (trimmed inside the handler). -/
structure CheckinForm where
  session_id : Nat
  name : String
  email : String
deriving DecidableEq, Repr

/-- Python's `str.strip()`: drop leading and trailing whitespace.  (Lean's
own `String.trim` is defined through well-founded recursion that the
kernel cannot evaluate, so the embedding defines stripping directly over
the character list.) -/
def pyStrip (s : String) : String :=
  ⟨((s.data.dropWhile Char.isWhitespace).reverse.dropWhile
      Char.isWhitespace).reverse⟩

/-- Python's `str.lower()` on the ASCII names this application handles. -/
def pyLower (s : String) : String :=
  ⟨s.data.map Char.toLower⟩

/-- Replace the first element satisfying `p` (the ORM mutates the row object
returned by `.first()` in place). -/
def replaceFirst (p : Student → Bool) (s' : Student) : List Student → List Student
  | [] => []
  | t :: ts => if p t then s' :: ts else t :: replaceFirst p s' ts

/-- Case-insensitive name match used by
`Student.query.filter(func.lower(Student.name)==name.lower())`. -/
def nameMatches (name : String) (s : Student) : Bool :=
  pyLower s.name == pyLower name

/-- Result of a `submit_checkin` request: the new database, the response,
the resolved `student` object (when validation passed), and whether
`check_and_notify_student` was invoked. -/
structure CheckinResult where
  db : DB
  resp : Resp
  student : Option Student
  transitionInvoked : Bool
deriving Repr

/-- The "Mark attendance" step of `submit_checkin`: insert an Attendance
row for `(student_id, session_id)` unless one already exists. -/
def markAttendance (db : DB) (studentId sessionId now : Nat) : DB :=
  if db.attendances.any (fun a => a.student_id == studentId && a.session_id == sessionId) then
    db
  else
    { db with
      attendances := db.attendances ++
        [{ id := db.nextAttendanceId, student_id := studentId,
           session_id := sessionId, present := true, timestamp := now }],
      nextAttendanceId := db.nextAttendanceId + 1 }

/-- The student-matching step of `submit_checkin` (app.py lines 238-246):
match an existing student by case-insensitive name, creating one or
backfilling a missing email otherwise.  Returns the database after this
step together with the resolved student object. -/
def resolveStudent (db : DB) (name email : String) : DB × Student :=
  match db.students.find? (nameMatches name) with
  | none =>
      let st : Student :=
        { id := db.nextStudentId, name := name,
          email := if email == "" then none else some email,
          active := true, last_notified_at := none }
      ({ db with
          students := db.students ++ [st],
          nextStudentId := db.nextStudentId + 1 }, st)
  | some s =>
      if email != "" && !(truthyS s.email) then
        let s' := { s with email := some email }
        ({ db with students := replaceFirst (nameMatches name) s' db.students },
         s')
      else (db, s)

/-- `submit_checkin` (app.py lines 229-259): validate the name, match or
create the student (backfilling a missing email), mark attendance
idempotently, then run the status transition.  Note the handler performs
no existence check on `session_id`. -/
def submit_checkin (cfg : EmailConfig) (smtpOk : Bool) (now : Nat)
    (db : DB) (form : CheckinForm) : CheckinResult :=
  let name := pyStrip form.name
  let email := pyStrip form.email
  if name == "" then
    { db := db, resp := Resp.redirectErr form.session_id,
      student := none, transitionInvoked := false }
  else
    let resolved := resolveStudent db name email
    let db2 := markAttendance resolved.1 resolved.2.id form.session_id now
    let db3 := check_and_notify_db cfg smtpOk now db2 resolved.2
    { db := db3, resp := Resp.redirectOk form.session_id,
      student := some resolved.2, transitionInvoked := true }

/-- `get_or_create_today_session` (app.py lines 126-133). -/
def get_or_create_today_session (db : DB) (today : Nat) : DB × ClassSession :=
  match db.sessions.find? (fun s => s.class_date == today) with
  | some s => (db, s)
  | none =>
      let s : ClassSession := { id := db.nextSessionId, class_date := today }
      ({ db with
          sessions := db.sessions ++ [s],
          nextSessionId := db.nextSessionId + 1 }, s)

/-- GET `/checkin` (app.py lines 220-227): a falsy `session_id` (absent or
zero) falls back to today's session; otherwise `get_or_404` renders the
page only when the session exists. -/
def checkin (db : DB) (today : Nat) (sidArg : Option Nat) : DB × Resp :=
  if sidArg.getD 0 == 0 then
    let r := get_or_create_today_session db today
    (r.1, Resp.page)
  else
    let sid := sidArg.getD 0
    if db.sessions.any (fun s => s.id == sid) then (db, Resp.page)
    else (db, Resp.notFound)

/-- Number of Attendance rows for a given `(student_id, session_id)` pair. -/
def pairCount (db : DB) (studentId sessionId : Nat) : Nat :=
  (db.attendances.filter
    (fun a => a.student_id == studentId && a.session_id == sessionId)).length

/-! ## CSV export (`export_csv`, all-students branch, app.py lines 314-326) -/

/-- Python 3 `round` on an exact value: round half to even. -/
def pyRound (q : ℚ) : ℤ :=
  let f := ⌊q⌋
  let r := q - (f : ℚ)
  if r < 1/2 then f
  else if 1/2 < r then f + 1
  else if f % 2 = 0 then f else f + 1

/-- One row of the all-students CSV export (app.py lines 318-326):
`(name, email, attendance_percent, status, present_days, total_sessions)`.
The percentage divides by `(total_sessions or 1)`. -/
def export_row (db : DB) (s : Student) :
    String × String × ℤ × String × Nat × Nat :=
  let total_sessions := db.sessions.length
  let present_count := presentCount db s.id
  let pct := pyRound (((present_count : ℚ) /
    ((if total_sessions = 0 then 1 else total_sessions : Nat) : ℚ)) * 100)
  let status := if pct ≥ 50 then "Active" else "Inactive"
  (s.name, s.email.getD "", pct, status, present_count, total_sessions)

/-- `attendance_percent` of a student's row in the all-students CSV. -/
def export_percent (db : DB) (s : Student) : ℤ := (export_row db s).2.2.1

/-- `status` of a student's row in the all-students CSV. -/
def export_status (db : DB) (s : Student) : String := (export_row db s).2.2.2.1

/-! ## Admin operations (app.py lines 333-414) -/

/-- Request context for the admin routes: the submitted form `code`, the
`ADMIN_CODE` environment variable (`None` when unset), and the
`session['is_admin']` flag. -/
structure ReqCtx where
  formCode : Option String
  envAdminCode : Option String
  isAdminSession : Bool
deriving DecidableEq, Repr

/-- `os.getenv('ADMIN_CODE', 'letmein')`. -/
def adminCode (ctx : ReqCtx) : String := ctx.envAdminCode.getD "letmein"

/-- `require_admin()` (app.py lines 379-380). -/
def require_admin (ctx : ReqCtx) : Bool := ctx.isAdminSession

/-- POST `/admin/create_session` (app.py lines 333-343): gated on the form
code only; inserts a session for the date unless one exists. -/
def create_session (ctx : ReqCtx) (db : DB) (when : Nat) : DB × Resp :=
  if !(ctx.formCode == some (adminCode ctx)) then (db, Resp.forbidden)
  else if db.sessions.any (fun s => s.class_date == when) then (db, Resp.redirect)
  else
    ({ db with
        sessions := db.sessions ++ [{ id := db.nextSessionId, class_date := when }],
        nextSessionId := db.nextSessionId + 1 }, Resp.redirect)

/-- POST `/admin/clear_students` (app.py lines 345-355): gated on the form
code (defaulted to `''`) only; deletes every Attendance and Student row. -/
def clear_students (ctx : ReqCtx) (db : DB) : DB × Resp :=
  if !(ctx.formCode.getD "" == adminCode ctx) then (db, Resp.forbidden)
  else ({ db with students := [], attendances := [] }, Resp.redirect)

/-- POST `/admin/student/<id>/delete` (app.py lines 382-391): gated on the
admin session flag only; deletes the student and their attendance rows. -/
def delete_student (ctx : ReqCtx) (db : DB) (studentId : Nat) : DB × Resp :=
  if !(require_admin ctx) then (db, Resp.forbidden)
  else
    match db.students.find? (fun s => s.id == studentId) with
    | none => (db, Resp.notFound)
    | some s =>
        ({ db with
            attendances := db.attendances.filter (fun a => !(a.student_id == s.id)),
            students := db.students.filter (fun t => !(t.id == s.id)) },
         Resp.redirect)

/-- The edit form for `/admin/student/<id>/edit`. -/
structure EditForm where
  name : String
  email : String
deriving DecidableEq, Repr

/-- The uniqueness check the database performs on commit of an edited
student: another student already holds the new name or the new email
(`UNIQUE` ignores NULLs, so a `none` email never conflicts). -/
def editConflicts (db : DB) (sid : Nat) (newName : String)
    (newEmail : Option String) : Bool :=
  db.students.any (fun t =>
    !(t.id == sid) &&
      (t.name == newName ||
        (match newEmail, t.email with
         | some e, some e' => e == e'
         | _, _ => false)))

/-- POST `/admin/student/<id>/edit` (app.py lines 393-414): gated on the
admin session flag; a blank email is stored as `None`; a uniqueness
violation rolls the update back. -/
def edit_student (ctx : ReqCtx) (db : DB) (studentId : Nat) (form : EditForm) :
    DB × Resp :=
  if !(require_admin ctx) then (db, Resp.forbidden)
  else
    match db.students.find? (fun s => s.id == studentId) with
    | none => (db, Resp.notFound)
    | some s =>
        let new_name := pyStrip form.name
        let new_email := if pyStrip form.email == "" then none
          else some (pyStrip form.email)
        if new_name == "" then (db, Resp.redirectErr studentId)
        else if editConflicts db s.id new_name new_email then
          (db, Resp.redirectErr studentId)
        else
          ({ db with
              students := db.students.map fun t =>
                if t.id == s.id then { t with name := new_name, email := new_email }
                else t },
           Resp.redirect)

/-- The email-uniqueness conflict relation between two student rows:
SQL `UNIQUE` only compares non-NULL values. -/
def emailConflict (s t : Student) : Prop :=
  ∃ e : String, s.email = some e ∧ t.email = some e

instance (s t : Student) : Decidable (emailConflict s t) := by
  unfold emailConflict
  rcases s.email with _ | e
  · exact isFalse (by rintro ⟨e, h, _⟩; cases h)
  · rcases t.email with _ | e'
    · exact isFalse (by rintro ⟨x, _, h⟩; cases h)
    · by_cases h : e = e'
      · exact isTrue ⟨e, rfl, by rw [h]⟩
      · refine isFalse ?_
        rintro ⟨x, hx, hx'⟩
        cases hx; cases hx'; exact h rfl

/-- No student row stores the empty string as its email. -/
def noEmptyEmail (db : DB) : Prop := ∀ t ∈ db.students, t.email ≠ some ""

instance (db : DB) : Decidable (noEmptyEmail db) := by
  unfold noEmptyEmail; infer_instance

/-- Primary-key sanity for the student table: ids are distinct and below
the auto-increment counter. -/
def studentIdsOk (db : DB) : Prop :=
  (db.students.map (fun s => s.id)).Nodup ∧
    ∀ s ∈ db.students, s.id < db.nextStudentId

instance (db : DB) : Decidable (studentIdsOk db) := by
  unfold studentIdsOk; infer_instance

/-- A database with two sessions, one student and one present attendance
row. -/
def exDbC1 : DB :=
  ⟨[⟨7, "Sam", none, true, none⟩], [⟨1, 0⟩, ⟨2, 1⟩], [⟨1, 7, 1, true, 0⟩], 8, 3, 2⟩

/-- A database with two sessions and one Inactive student holding exactly
one present attendance row (ratio exactly 1/2). -/
def exDbC2 : DB :=
  ⟨[⟨7, "Sam", none, false, none⟩], [⟨1, 0⟩, ⟨2, 1⟩], [⟨1, 7, 1, true, 0⟩], 8, 3, 2⟩

/-- The Inactive student of `exDbC2`. -/
def exStC2 : Student := ⟨7, "Sam", none, false, none⟩

/-- A database where "Sam" (with an email on file) attended 1 of 3
sessions. -/
def exDbC3 : DB :=
  ⟨[⟨7, "Sam", some "sam@example.com", true, none⟩],
   [⟨1, 0⟩, ⟨2, 1⟩, ⟨3, 2⟩], [⟨1, 7, 1, true, 0⟩], 8, 4, 2⟩

/-- The Active student of `exDbC3`. -/
def exStC3 : Student := ⟨7, "Sam", some "sam@example.com", true, none⟩

/-- A fully configured SMTP transport. -/
def exCfgFull : EmailConfig := ⟨some "smtp.example.com", 587, some "u", some "p", none⟩

/-- Same data as `exDbC3`, duplicated so the claims stay independent. -/
def exDbC8 : DB :=
  ⟨[⟨7, "Sam", some "sam@example.com", true, none⟩],
   [⟨1, 0⟩, ⟨2, 1⟩, ⟨3, 2⟩], [⟨1, 7, 1, true, 0⟩], 8, 4, 2⟩

/-- The Active student of `exDbC8`. -/
def exStC8 : Student := ⟨7, "Sam", some "sam@example.com", true, none⟩

/-- A fully unconfigured transport: `send_email` returns `False`. -/
def exCfgNone : EmailConfig := ⟨none, 0, none, none, none⟩

/-- One student, zero sessions: the CSV percent is 0 / status Inactive,
while the ratio calculator's convention yields `1.0` (i.e. 100%). -/
def exDbC5 : DB := ⟨[⟨1, "Ann", none, true, none⟩], [], [], 2, 1, 1⟩

/-- The student of `exDbC5`. -/
def exStC5 : Student := ⟨1, "Ann", none, true, none⟩

/-- Three sessions, one present row for "Sam". -/
def exDbC5b : DB :=
  ⟨[⟨7, "Sam", none, true, none⟩], [⟨1, 0⟩, ⟨2, 1⟩, ⟨3, 2⟩],
   [⟨1, 7, 1, true, 0⟩], 8, 4, 2⟩

/-- The student of `exDbC5b`. -/
def exStC5b : Student := ⟨7, "Sam", none, true, none⟩

/-- An empty database. -/
def exDbC7 : DB := ⟨[], [], [], 1, 1, 1⟩

/-- A populated database for the clear-students witness. -/
def exDbC9 : DB :=
  ⟨[⟨7, "Sam", none, true, none⟩], [⟨1, 0⟩, ⟨2, 1⟩], [⟨1, 7, 1, true, 0⟩], 8, 3, 2⟩

/-- An empty database (no sessions at all). -/
def exDbC6 : DB := ⟨[], [], [], 1, 1, 1⟩

/-- A check-in submission naming session 5, which does not exist. -/
def exFormC6 : CheckinForm := ⟨5, "Alex", ""⟩

/-- An unconfigured email transport. -/
def exCfgC6 : EmailConfig := ⟨none, 0, none, none, none⟩

/-- A database with one student whose email is NULL. -/
def exDbC10 : DB := ⟨[⟨1, "Bob", none, true, none⟩], [], [], 2, 1, 1⟩

/-- A check-in form with a blank email field. -/
def exFormC10 : CheckinForm := ⟨3, "Alex", "   "⟩

/-- The `(id, name)` projection of the student table. -/
def nameKeys (l : List Student) : List (Nat × String) :=
  l.map (fun t => (t.id, t.name))

/-- One session, no students yet. -/
def exDbC4 : DB := ⟨[], [⟨1, 0⟩], [], 1, 2, 1⟩

/-- Sam's first check-in form for session 1. -/
def exFormC4 : CheckinForm := ⟨1, "Sam", ""⟩

/-- An unconfigured transport for the idempotence witness. -/
def exCfgC4 : EmailConfig := ⟨none, 0, none, none, none⟩

/-! ## Verification -/

/-- Under the uniqueness and referential-integrity invariants, a student has
at most `total_sessions` present attendance rows. -/
theorem presentCount_le_sessions (db : DB) (sid : Nat)
    (hu : attendanceKeysUnique db) (hr : attendanceSessionsExist db) :
    presentCount db sid ≤ db.sessions.length := by
  classical
  unfold presentCount
  set l := db.attendances.filter (fun a => a.student_id == sid && a.present) with hl
  have hsub : List.Sublist l db.attendances := List.filter_sublist _
  have hpw : l.Pairwise
      (fun a b => a.student_id ≠ b.student_id ∨ a.session_id ≠ b.session_id) :=
    List.Pairwise.sublist hsub hu
  have hmem : ∀ a ∈ l, a.student_id = sid := by
    intro a ha
    have := List.of_mem_filter ha
    simp only [Bool.and_eq_true, beq_iff_eq] at this
    exact this.1
  -- session ids along `l` are pairwise distinct
  have hnd : (l.map (fun a => a.session_id)).Nodup := by
    refine List.pairwise_map.mpr ?_
    have := (List.Pairwise.and_mem.mp hpw)
    refine this.imp ?_
    rintro a b ⟨ha, hb, hab⟩
    rcases hab with h | h
    · exact absurd ((hmem a ha).trans (hmem b hb).symm) h
    · exact h
  have hss : (l.map (fun a => a.session_id)) ⊆ db.sessions.map (fun s => s.id) := by
    intro x hx
    rcases List.mem_map.mp hx with ⟨a, ha, rfl⟩
    rcases hr a (hsub.subset ha) with ⟨s, hs, hsid⟩
    exact List.mem_map.mpr ⟨s, hs, hsid⟩
  have := (List.subperm_of_subset hnd hss).length_le
  simpa using this

/-- Zero sessions convention: `attendance_ratio` is `1.0`. -/
theorem attendance_ratio_zero_sessions (db : DB) (sid : Nat)
    (h : db.sessions.length = 0) : attendance_ratio db sid = 1 := by
  simp [attendance_ratio, h]

/-- With at least one session, `attendance_ratio` is `P / T`. -/
theorem attendance_ratio_pos_sessions (db : DB) (sid : Nat)
    (h : db.sessions.length ≠ 0) :
    attendance_ratio db sid =
      (presentCount db sid : ℚ) / (db.sessions.length : ℚ) := by
  simp [attendance_ratio, h]

theorem attendance_ratio_nonneg (db : DB) (sid : Nat) :
    0 ≤ attendance_ratio db sid := by
  unfold attendance_ratio
  split
  · norm_num
  · positivity

theorem attendance_ratio_le_one (db : DB) (sid : Nat)
    (hu : attendanceKeysUnique db) (hr : attendanceSessionsExist db) :
    attendance_ratio db sid ≤ 1 := by
  unfold attendance_ratio
  split
  · exact le_refl 1
  · rename_i h
    have hpos : (0 : ℚ) < (db.sessions.length : ℚ) := by
      exact_mod_cast Nat.pos_of_ne_zero h
    rw [div_le_one hpos]
    exact_mod_cast presentCount_le_sessions db sid hu hr

/-! ## Plumbing lemmas: what each step leaves untouched -/

theorem applyEvent_attendances (db : DB) (e : Event) :
    (applyEvent db e).attendances = db.attendances := by
  cases e <;> rfl

theorem applyEvent_sessions (db : DB) (e : Event) :
    (applyEvent db e).sessions = db.sessions := by
  cases e <;> rfl

theorem foldl_applyEvent_attendances (tr : List Event) (db : DB) :
    (tr.foldl applyEvent db).attendances = db.attendances := by
  induction tr generalizing db with
  | nil => rfl
  | cons e tr ih => rw [List.foldl_cons, ih, applyEvent_attendances]

theorem foldl_applyEvent_sessions (tr : List Event) (db : DB) :
    (tr.foldl applyEvent db).sessions = db.sessions := by
  induction tr generalizing db with
  | nil => rfl
  | cons e tr ih => rw [List.foldl_cons, ih, applyEvent_sessions]

/-- The status transition commits only student rows: attendance is
untouched. -/
theorem check_and_notify_db_attendances (cfg : EmailConfig) (smtpOk : Bool)
    (now : Nat) (db : DB) (st : Student) :
    (check_and_notify_db cfg smtpOk now db st).attendances = db.attendances :=
  foldl_applyEvent_attendances _ _

/-- The status transition commits only student rows: sessions are
untouched. -/
theorem check_and_notify_db_sessions (cfg : EmailConfig) (smtpOk : Bool)
    (now : Nat) (db : DB) (st : Student) :
    (check_and_notify_db cfg smtpOk now db st).sessions = db.sessions :=
  foldl_applyEvent_sessions _ _

/-- The student-matching step never touches the attendance table. -/
theorem resolveStudent_attendances (db : DB) (n e : String) :
    (resolveStudent db n e).1.attendances = db.attendances := by
  unfold resolveStudent
  rcases db.students.find? (nameMatches n) with _ | s
  · rfl
  · dsimp only
    split <;> rfl

/-- After `markAttendance` there is an attendance row for the pair. -/
theorem markAttendance_row (db : DB) (stId sid now : Nat) :
    ∃ a ∈ (markAttendance db stId sid now).attendances,
      a.student_id = stId ∧ a.session_id = sid := by
  unfold markAttendance
  split
  · rename_i hany
    rcases List.any_eq_true.mp hany with ⟨a, ha, hpa⟩
    simp only [Bool.and_eq_true, beq_iff_eq] at hpa
    exact ⟨a, ha, hpa.1, hpa.2⟩
  · exact ⟨{ id := db.nextAttendanceId, student_id := stId, session_id := sid,
             present := true, timestamp := now }, by simp, rfl, rfl⟩

/-- On a valid (non-blank) name, `submit_checkin` flashes success and
redirects back to the check-in page. -/
theorem submit_checkin_resp (cfg : EmailConfig) (smtpOk : Bool) (now : Nat)
    (db : DB) (form : CheckinForm)
    (hname : (pyStrip form.name == "") = false) :
    (submit_checkin cfg smtpOk now db form).resp =
      Resp.redirectOk form.session_id := by
  simp [submit_checkin, hname]

/-- On a valid name, the resolved student object is returned. -/
theorem submit_checkin_student (cfg : EmailConfig) (smtpOk : Bool) (now : Nat)
    (db : DB) (form : CheckinForm)
    (hname : (pyStrip form.name == "") = false) :
    (submit_checkin cfg smtpOk now db form).student =
      some (resolveStudent db (pyStrip form.name) (pyStrip form.email)).2 := by
  simp [submit_checkin, hname]

/-- On a valid name, the status transition is always invoked. -/
theorem submit_checkin_invokes (cfg : EmailConfig) (smtpOk : Bool) (now : Nat)
    (db : DB) (form : CheckinForm)
    (hname : (pyStrip form.name == "") = false) :
    (submit_checkin cfg smtpOk now db form).transitionInvoked = true := by
  simp [submit_checkin, hname]

/-- On a valid name, the final attendance table is the one produced by the
idempotent marking step. -/
theorem submit_checkin_attendances (cfg : EmailConfig) (smtpOk : Bool)
    (now : Nat) (db : DB) (form : CheckinForm)
    (hname : (pyStrip form.name == "") = false) :
    (submit_checkin cfg smtpOk now db form).db.attendances =
      (markAttendance
        (resolveStudent db (pyStrip form.name) (pyStrip form.email)).1
        (resolveStudent db (pyStrip form.name) (pyStrip form.email)).2.id
        form.session_id now).attendances := by
  simp [submit_checkin, hname, check_and_notify_db_attendances]

/-! ## Claim C1 -/

/-- C1: `attendance_ratio` returns `1.0` when the total Session count is
zero, and otherwise `P / T` where `P` counts the student's present
Attendance rows and `T` the sessions; under the attendance uniqueness
invariant (with all rows referencing existing sessions) the result lies in
`[0, 1]`. -/
theorem attendance_ratio_spec (db : DB) (student_id : Nat)
    (hu : attendanceKeysUnique db) (hr : attendanceSessionsExist db) :
    (db.sessions.length = 0 → attendance_ratio db student_id = 1) ∧
    (db.sessions.length ≠ 0 →
      attendance_ratio db student_id =
        (presentCount db student_id : ℚ) / (db.sessions.length : ℚ)) ∧
    0 ≤ attendance_ratio db student_id ∧ attendance_ratio db student_id ≤ 1 :=
  ⟨attendance_ratio_zero_sessions db student_id,
   attendance_ratio_pos_sessions db student_id,
   attendance_ratio_nonneg db student_id,
   attendance_ratio_le_one db student_id hu hr⟩

theorem attendance_ratio_spec_witness :
    attendanceKeysUnique exDbC1 ∧ attendanceSessionsExist exDbC1 ∧
      (0 ≤ attendance_ratio exDbC1 7 ∧ attendance_ratio exDbC1 7 ≤ 1) :=
  ⟨by decide, by decide,
   (attendance_ratio_spec exDbC1 7 (by decide) (by decide)).2.2⟩

/-! ## Claim C2 -/

/-- C2: the status transition compares with a strict `<` against
`DANGER_THRESHOLD = 0.5`: at a ratio of exactly `0.5` an Active student is
left untouched (never demoted), and an Inactive student is flipped back to
`active = true` and that flip committed, with no notification event of any
kind on recovery. -/
theorem threshold_strict_spec (db : DB) (st : Student) (cfg : EmailConfig)
    (smtpOk : Bool) (now : Nat)
    (h : attendance_ratio db st.id = DANGER_THRESHOLD) :
    (st.active = true → check_and_notify_trace cfg smtpOk now db st = []) ∧
    (st.active = false →
      check_and_notify_trace cfg smtpOk now db st =
        [Event.commit { st with active := true }]) := by
  have hlt : decide (attendance_ratio db st.id < DANGER_THRESHOLD) = false :=
    decide_eq_false (by rw [h]; exact lt_irrefl _)
  constructor <;> intro ha <;>
    simp [check_and_notify_trace, hlt, ha]

theorem threshold_strict_spec_witness :
    attendance_ratio exDbC2 exStC2.id = DANGER_THRESHOLD ∧
      check_and_notify_trace ⟨none, 0, none, none, none⟩ true 5 exDbC2 exStC2 =
        [Event.commit { exStC2 with active := true }] :=
  ⟨by simp [attendance_ratio, presentCount, exDbC2, exStC2, DANGER_THRESHOLD],
   (threshold_strict_spec exDbC2 exStC2 ⟨none, 0, none, none, none⟩ true 5
      (by simp [attendance_ratio, presentCount, exDbC2, exStC2, DANGER_THRESHOLD])).2
     rfl⟩

/-! ## Claim C3 -/

/-- C3: when an Active student's ratio is below `0.5`, the `active = false`
flip is committed first — before any email attempt — and every state the
transition ever commits (whatever the email configuration and whether the
SMTP transaction returns or raises) has `active = false`: the notification
outcome never rolls the demotion back. -/
theorem demotion_commit_precedes_email (db : DB) (st : Student)
    (cfg : EmailConfig) (smtpOk : Bool) (now : Nat)
    (ha : st.active = true)
    (h : attendance_ratio db st.id < DANGER_THRESHOLD) :
    (check_and_notify_trace cfg smtpOk now db st).head? =
        some (Event.commit { st with active := false }) ∧
    (∀ s', Event.commit s' ∈ check_and_notify_trace cfg smtpOk now db st →
        s'.active = false) ∧
    (finalStudent st (check_and_notify_trace cfg smtpOk now db st)).active
        = false := by
  have hlt : decide (attendance_ratio db st.id < DANGER_THRESHOLD) = true :=
    decide_eq_true h
  by_cases he : truthyS st.email
  · rcases hres : send_email cfg smtpOk (st.email.getD "") with b | _ <;>
      refine ⟨?_, ?_, ?_⟩ <;>
      simp [check_and_notify_trace, hlt, ha, he, hres, finalStudent]
  · refine ⟨?_, ?_, ?_⟩ <;>
      simp [check_and_notify_trace, hlt, ha, he, finalStudent]

theorem demotion_commit_precedes_email_witness :
    exStC3.active = true ∧
      attendance_ratio exDbC3 exStC3.id < DANGER_THRESHOLD ∧
      (check_and_notify_trace exCfgFull false 9 exDbC3 exStC3).head? =
          some (Event.commit { exStC3 with active := false }) ∧
      (finalStudent exStC3
          (check_and_notify_trace exCfgFull false 9 exDbC3 exStC3)).active
        = false := by
  have h : attendance_ratio exDbC3 exStC3.id < DANGER_THRESHOLD := by
    simp [attendance_ratio, presentCount, exDbC3, exStC3, DANGER_THRESHOLD]
    norm_num
  have := demotion_commit_precedes_email exDbC3 exStC3 exCfgFull false 9 rfl h
  exact ⟨rfl, h, this.1, this.2.2⟩

/-! ## Claim C8 -/

/-- C8: when a student with a (truthy) email on file is demoted and
`send_email` returns (rather than raising) — in particular when it returns
`False` because the transport is unconfigured — the transition still sets
`last_notified_at` to the current time, so a non-null `last_notified_at`
does not imply an email was sent. -/
theorem last_notified_set_even_unsent (db : DB) (st : Student)
    (cfg : EmailConfig) (smtpOk : Bool) (now : Nat) (b : Bool)
    (ha : st.active = true)
    (h : attendance_ratio db st.id < DANGER_THRESHOLD)
    (he : truthyS st.email = true)
    (hres : send_email cfg smtpOk (st.email.getD "") = SendResult.returned b) :
    (finalStudent st (check_and_notify_trace cfg smtpOk now db st)).last_notified_at
      = some now := by
  have hlt : decide (attendance_ratio db st.id < DANGER_THRESHOLD) = true :=
    decide_eq_true h
  simp [check_and_notify_trace, hlt, ha, he, hres, finalStudent]

theorem last_notified_set_even_unsent_witness :
    send_email exCfgNone true (exStC8.email.getD "") = SendResult.returned false ∧
      (finalStudent exStC8
          (check_and_notify_trace exCfgNone true 9 exDbC8 exStC8)).last_notified_at
        = some 9 := by
  have h : attendance_ratio exDbC8 exStC8.id < DANGER_THRESHOLD := by
    simp [attendance_ratio, presentCount, exDbC8, exStC8, DANGER_THRESHOLD]
    norm_num
  refine ⟨by simp [send_email, exCfgNone, truthyS], ?_⟩
  exact last_notified_set_even_unsent exDbC8 exStC8 exCfgNone true 9 false rfl h
    (by simp [truthyS, exStC8]) (by simp [send_email, exCfgNone, truthyS])

/-! ## Claim C5 -/

/-- `pyRound` of zero. -/
theorem pyRound_zero : pyRound 0 = 0 := by
  simp [pyRound]

/-- The CSV status label is `"Active"` exactly when the percent is at least
50. -/
theorem status_label_iff (p : ℤ) :
    ((if p ≥ 50 then "Active" else "Inactive") = "Active") ↔ 50 ≤ p := by
  split
  · rename_i hp
    exact iff_of_true rfl hp
  · rename_i hp
    exact iff_of_false (by decide) hp

/-- With zero sessions and referential integrity there are no attendance
rows at all. -/
theorem attendances_nil_of_no_sessions (db : DB)
    (h0 : db.sessions.length = 0) (hr : attendanceSessionsExist db) :
    db.attendances = [] := by
  rcases hd : db.attendances with _ | ⟨a, rest⟩
  · rfl
  · exfalso
    rcases hr a (by rw [hd]; exact List.mem_cons_self a rest) with ⟨s, hs, _⟩
    rw [List.length_eq_zero] at h0
    rw [h0] at hs
    exact List.not_mem_nil s hs

/-- Refutes C5 as stated: with zero Session rows the all-students CSV
computes `present_count / 1`, emitting percent `0` and status `Inactive`,
not the ratio calculator's convention `1.0` (100%, Active). -/
theorem csv_zero_sessions_counterexample :
    export_percent exDbC5 exStC5 = 0 ∧
      pyRound (attendance_ratio exDbC5 exStC5.id * 100) = 100 ∧
      export_status exDbC5 exStC5 = "Inactive" := by
  refine ⟨?_, ?_, ?_⟩ <;>
    simp [export_percent, export_status, export_row, presentCount, pyRound,
      attendance_ratio, exDbC5, exStC5]

/-- C5 (amended): whenever at least one Session row exists, the
all-students CSV emits `attendance_percent = round(attendance_ratio * 100)`
and status `Active` exactly when that percent is `>= 50`; with zero
Session rows it instead divides by `1`, emitting percent `0` and status
`Inactive` for every student (under referential integrity), while the
ratio calculator returns `1.0`. -/
theorem export_row_matches_ratio (db : DB) (s : Student) :
    (db.sessions.length ≠ 0 →
      export_percent db s = pyRound (attendance_ratio db s.id * 100) ∧
      (export_status db s = "Active" ↔ 50 ≤ export_percent db s)) ∧
    (db.sessions.length = 0 → attendanceSessionsExist db →
      export_percent db s = 0 ∧ export_status db s = "Inactive" ∧
      attendance_ratio db s.id = 1) := by
  constructor
  · intro h
    have hratio := attendance_ratio_pos_sessions db s.id h
    constructor
    · simp [export_percent, export_row, h, hratio]
    · have hst : export_status db s =
          (if export_percent db s ≥ 50 then "Active" else "Inactive") := rfl
      rw [hst]
      exact status_label_iff _
  · intro h0 hr
    have hnil := attendances_nil_of_no_sessions db h0 hr
    have hp : presentCount db s.id = 0 := by simp [presentCount, hnil]
    refine ⟨?_, ?_, attendance_ratio_zero_sessions db s.id h0⟩
    · simp [export_percent, export_row, h0, hp, pyRound_zero]
    · simp [export_status, export_row, h0, hp, pyRound_zero]

theorem export_row_matches_ratio_witness :
    (exDbC5b.sessions.length ≠ 0 ∧
      export_percent exDbC5b exStC5b =
        pyRound (attendance_ratio exDbC5b exStC5b.id * 100)) ∧
    (exDbC5.sessions.length = 0 ∧ attendanceSessionsExist exDbC5 ∧
      export_percent exDbC5 exStC5 = 0) :=
  ⟨⟨by simp [exDbC5b],
    ((export_row_matches_ratio exDbC5b exStC5b).1 (by simp [exDbC5b])).1⟩,
   ⟨by simp [exDbC5], by decide,
    ((export_row_matches_ratio exDbC5 exStC5).2 (by simp [exDbC5]) (by decide)).1⟩⟩

/-! ## Claim C7 -/

/-- Refutes C7 as stated: a request with the admin session flag set (one of
the two credentials the claim says suffices) but no code is rejected by
`create_session`, and a request carrying the correct shared code but no
admin session flag is rejected by `delete_student`. -/
theorem admin_credentials_not_interchangeable :
    (ReqCtx.mk none none true).isAdminSession = true ∧
      (create_session ⟨none, none, true⟩ exDbC7 3).2 = Resp.forbidden ∧
      (ReqCtx.mk (some "letmein") none false).formCode =
        some (adminCode ⟨some "letmein", none, false⟩) ∧
      (delete_student ⟨some "letmein", none, false⟩ exDbC7 1).2 = Resp.forbidden := by
  refine ⟨rfl, ?_, rfl, ?_⟩ <;>
    simp [create_session, delete_student, require_admin, adminCode, exDbC7]

/-- C7 (amended): the four mutating admin operations do not share one
credential scheme: `create_session` and `clear_students` are gated solely
on the submitted shared code (the admin session flag does not suffice),
while `delete_student` and `edit_student` are gated solely on the admin
session flag (the code does not suffice); each returns a forbidden
response exactly when its own credential is absent. -/
theorem admin_auth_split (ctx : ReqCtx) (db : DB) (wh sid : Nat)
    (form : EditForm) :
    ((create_session ctx db wh).2 = Resp.forbidden ↔
        ¬(ctx.formCode = some (adminCode ctx))) ∧
    ((clear_students ctx db).2 = Resp.forbidden ↔
        ¬(ctx.formCode.getD "" = adminCode ctx)) ∧
    ((delete_student ctx db sid).2 = Resp.forbidden ↔
        ¬ctx.isAdminSession = true) ∧
    ((edit_student ctx db sid form).2 = Resp.forbidden ↔
        ¬ctx.isAdminSession = true) := by
  refine ⟨?_, ?_, ?_, ?_⟩
  · cases hb : ctx.formCode == some (adminCode ctx)
    · have hne : ctx.formCode ≠ some (adminCode ctx) := by
        intro he
        rw [he] at hb
        simp at hb
      simp [create_session, hb, hne]
    · have he : ctx.formCode = some (adminCode ctx) := by
        simpa using hb
      simp only [create_session, hb, Bool.not_true, Bool.false_eq_true,
        if_false]
      split <;> simp [he]
  · cases hb : ctx.formCode.getD "" == adminCode ctx
    · have hne : ctx.formCode.getD "" ≠ adminCode ctx := by
        intro he
        rw [he] at hb
        simp at hb
      simp [clear_students, hb, hne]
    · have he : ctx.formCode.getD "" = adminCode ctx := by
        simpa using hb
      simp [clear_students, hb, he]
  · cases hb : ctx.isAdminSession
    · simp [delete_student, require_admin, hb]
    · simp only [delete_student, require_admin, hb, Bool.not_true,
        Bool.false_eq_true, if_false]
      rcases hf : db.students.find? (fun s => s.id == sid) with _ | s <;>
        simp [hf, hb]
  · cases hb : ctx.isAdminSession
    · simp [edit_student, require_admin, hb]
    · simp only [edit_student, require_admin, hb, Bool.not_true,
        Bool.false_eq_true, if_false]
      rcases hf : db.students.find? (fun s => s.id == sid) with _ | s
      · simp [hf, hb]
      · simp only [hf, hb]
        split
        · simp
        · split <;> split <;> simp

/-! ## Claim C9 -/

/-- C9: an authorized bulk clear deletes every Attendance and Student row
while leaving the Session rows (ids and dates included) exactly as they
were. -/
theorem clear_students_frame (ctx : ReqCtx) (db : DB)
    (h : ctx.formCode.getD "" = adminCode ctx) :
    (clear_students ctx db).1.sessions = db.sessions ∧
    (clear_students ctx db).1.students = [] ∧
    (clear_students ctx db).1.attendances = [] ∧
    (clear_students ctx db).2 = Resp.redirect := by
  simp [clear_students, h]

theorem clear_students_frame_witness :
    (ReqCtx.mk (some "letmein") none false).formCode.getD "" =
        adminCode ⟨some "letmein", none, false⟩ ∧
      (clear_students ⟨some "letmein", none, false⟩ exDbC9).1.sessions =
        exDbC9.sessions ∧
      (clear_students ⟨some "letmein", none, false⟩ exDbC9).1.students = [] :=
  ⟨rfl,
   (clear_students_frame ⟨some "letmein", none, false⟩ exDbC9 rfl).1,
   (clear_students_frame ⟨some "letmein", none, false⟩ exDbC9 rfl).2.1⟩

/-! ## Claim C6 -/

/-- Refutes C6 as stated: submitting a check-in for nonexistent session 5
does not fail with a not-found error — it flashes success, and it mutates
state, inserting an Attendance row that references the missing session. -/
theorem submit_missing_session_counterexample :
    (∀ s ∈ exDbC6.sessions, s.id ≠ 5) ∧
      (submit_checkin exCfgC6 true 10 exDbC6 exFormC6).resp = Resp.redirectOk 5 ∧
      (submit_checkin exCfgC6 true 10 exDbC6 exFormC6).resp ≠ Resp.notFound ∧
      ((submit_checkin exCfgC6 true 10 exDbC6 exFormC6).db.attendances.map
          (fun a => a.session_id)) = [5] ∧
      (submit_checkin exCfgC6 true 10 exDbC6 exFormC6).student ≠ none := by
  refine ⟨by decide, by decide, by decide, ?_, by decide⟩
  rw [submit_checkin_attendances exCfgC6 true 10 exDbC6 exFormC6 (by decide)]
  decide

/-- C6 (amended): only the GET check-in page validates the session: for a
session id that exists nowhere, GET `/checkin` returns not-found, but the
POST submission handler performs no existence check — with a valid name it
responds with the success redirect and leaves an Attendance row for the
resolved student referencing the nonexistent session id. -/
theorem checkin_validation_location (db : DB) (today : Nat)
    (form : CheckinForm) (cfg : EmailConfig) (smtpOk : Bool) (now : Nat)
    (hname : (pyStrip form.name == "") = false)
    (h0 : form.session_id ≠ 0)
    (hsid : ∀ s ∈ db.sessions, s.id ≠ form.session_id) :
    (checkin db today (some form.session_id)).2 = Resp.notFound ∧
    (submit_checkin cfg smtpOk now db form).resp =
      Resp.redirectOk form.session_id ∧
    ∃ a ∈ (submit_checkin cfg smtpOk now db form).db.attendances,
      a.student_id =
        (resolveStudent db (pyStrip form.name) (pyStrip form.email)).2.id ∧
      a.session_id = form.session_id := by
  refine ⟨?_, submit_checkin_resp cfg smtpOk now db form hname, ?_⟩
  · have hany : (db.sessions.any fun s => s.id == form.session_id) = false := by
      rw [List.any_eq_false]
      intro s hs
      simp [hsid s hs]
    simp [checkin, h0, hany]
  · rw [submit_checkin_attendances cfg smtpOk now db form hname]
    exact markAttendance_row _ _ _ _

theorem checkin_validation_location_witness :
    ((pyStrip exFormC6.name == "") = false ∧ exFormC6.session_id ≠ 0 ∧
        (∀ s ∈ exDbC6.sessions, s.id ≠ exFormC6.session_id)) ∧
      (checkin exDbC6 0 (some exFormC6.session_id)).2 = Resp.notFound ∧
      (submit_checkin exCfgC6 true 10 exDbC6 exFormC6).resp =
        Resp.redirectOk exFormC6.session_id :=
  ⟨⟨by decide, by decide, by decide⟩,
   (checkin_validation_location exDbC6 0 exFormC6 exCfgC6 true 10
      (by decide) (by decide) (by decide)).1,
   (checkin_validation_location exDbC6 0 exFormC6 exCfgC6 true 10
      (by decide) (by decide) (by decide)).2.1⟩

/-! ## Claim C10 -/

/-- Membership after `replaceFirst`: the element is the replacement or was
already present. -/
theorem mem_replaceFirst {p : Student → Bool} {s' t : Student}
    {l : List Student} (h : t ∈ replaceFirst p s' l) : t = s' ∨ t ∈ l := by
  induction l with
  | nil => simp [replaceFirst] at h
  | cons a l ih =>
      unfold replaceFirst at h
      split at h
      · rcases List.mem_cons.mp h with h1 | h1
        · exact Or.inl h1
        · exact Or.inr (List.mem_cons_of_mem a h1)
      · rcases List.mem_cons.mp h with h1 | h1
        · exact Or.inr (h1 ▸ List.mem_cons_self a l)
        · rcases ih h1 with h2 | h2
          · exact Or.inl h2
          · exact Or.inr (List.mem_cons_of_mem a h2)

/-- `markAttendance` never touches the student table. -/
theorem markAttendance_students (db : DB) (stId sid now : Nat) :
    (markAttendance db stId sid now).students = db.students := by
  unfold markAttendance
  split <;> rfl

/-- Every snapshot the status transition commits carries the id, name and
email of the student object it was handed. -/
theorem trace_commit_fields (cfg : EmailConfig) (smtpOk : Bool) (now : Nat)
    (db : DB) (st : Student) (s' : Student)
    (hs : Event.commit s' ∈ check_and_notify_trace cfg smtpOk now db st) :
    s'.id = st.id ∧ s'.name = st.name ∧ s'.email = st.email := by
  simp only [check_and_notify_trace] at hs
  split at hs
  · split at hs
    · split at hs
      · simp only [List.mem_cons, List.not_mem_nil, or_false] at hs
        rcases hs with h1 | h1
        · rw [Event.commit.injEq] at h1
          subst h1
          exact ⟨rfl, rfl, rfl⟩
        · exact absurd h1 (by simp)
      · simp only [List.mem_cons, List.not_mem_nil, or_false] at hs
        rcases hs with h1 | h1 | h1
        · rw [Event.commit.injEq] at h1
          subst h1
          exact ⟨rfl, rfl, rfl⟩
        · exact absurd h1 (by simp)
        · rw [Event.commit.injEq] at h1
          subst h1
          exact ⟨rfl, rfl, rfl⟩
    · simp only [List.mem_cons, List.not_mem_nil, or_false] at hs
      rw [Event.commit.injEq] at hs
      subst hs
      exact ⟨rfl, rfl, rfl⟩
  · split at hs
    · simp only [List.mem_cons, List.not_mem_nil, or_false] at hs
      rw [Event.commit.injEq] at hs
      subst hs
      exact ⟨rfl, rfl, rfl⟩
    · exact absurd hs (List.not_mem_nil _)

/-- Folding commits preserves "no student stores the empty-string email",
as long as no committed snapshot stores it. -/
theorem foldl_applyEvent_emailsOk (tr : List Event) (db : DB)
    (hdb : ∀ t ∈ db.students, t.email ≠ some "")
    (htr : ∀ s', Event.commit s' ∈ tr → s'.email ≠ some "") :
    ∀ t ∈ (tr.foldl applyEvent db).students, t.email ≠ some "" := by
  induction tr generalizing db with
  | nil => exact hdb
  | cons e tr ih =>
      rw [List.foldl_cons]
      refine ih (applyEvent db e) ?_ ?_
      · cases e with
        | commit s'' =>
            intro t ht
            rcases List.mem_map.mp ht with ⟨u, hu, rfl⟩
            split
            · exact htr s'' (List.mem_cons_self _ _)
            · exact hdb u hu
        | emailSend r res => exact hdb
      · intro s' hs'
        exact htr s' (List.mem_cons_of_mem _ hs')

/-- The student-matching step preserves the blank-email invariant, and the
student object it returns never stores `""` either. -/
theorem resolveStudent_emailsOk (db : DB) (n e : String)
    (hinv : noEmptyEmail db) :
    (∀ t ∈ (resolveStudent db n e).1.students, t.email ≠ some "") ∧
      (resolveStudent db n e).2.email ≠ some "" := by
  unfold resolveStudent
  rcases hf : db.students.find? (nameMatches n) with _ | s <;>
    simp only [hf]
  · have hemail :
        (if (e == "") = true then (none : Option String) else some e) ≠ some "" := by
      split
      · exact fun hc => Option.noConfusion hc
      · rename_i hcond
        intro hc
        rw [Option.some.inj hc] at hcond
        simp at hcond
    constructor
    · intro t ht
      rcases List.mem_append.mp ht with h1 | h1
      · exact hinv t h1
      · rcases List.mem_singleton.mp h1 with rfl
        exact hemail
    · exact hemail
  · split
    · rename_i hcond
      simp only [Bool.and_eq_true, bne_iff_ne] at hcond
      have hne : (some e : Option String) ≠ some "" := by
        intro hc
        exact hcond.1 (Option.some.inj hc)
      constructor
      · intro t ht
        rcases mem_replaceFirst ht with rfl | h1
        · exact hne
        · exact hinv t h1
      · exact hne
    · exact ⟨hinv, hinv s (List.mem_of_find?_eq_some hf)⟩

/-- Case analysis of `edit_student`: either it is a no-op on the database
(and does not answer the success redirect), or it found the student, no
uniqueness conflict arose, and the student table is rewritten with the
stripped name and NULL-normalised email. -/
theorem edit_student_cases (ctx : ReqCtx) (db : DB) (sid : Nat)
    (form : EditForm) :
    ((edit_student ctx db sid form).1 = db ∧
        (edit_student ctx db sid form).2 ≠ Resp.redirect) ∨
    (∃ s, db.students.find? (fun t => t.id == sid) = some s ∧
        (edit_student ctx db sid form).2 = Resp.redirect ∧
        (edit_student ctx db sid form).1.students =
          db.students.map (fun t =>
            if t.id = s.id then
              { t with
                  name := pyStrip form.name,
                  email := if pyStrip form.email = "" then none
                    else some (pyStrip form.email) }
            else t)) := by
  cases hadm : require_admin ctx
  · left
    constructor <;> simp [edit_student, hadm]
  · rcases hf : db.students.find? (fun t => t.id == sid) with _ | s
    · left
      constructor <;> simp [edit_student, hadm, hf]
    · cases hnm : (pyStrip form.name == "")
      · cases hcf : editConflicts db s.id (pyStrip form.name)
            (if pyStrip form.email = "" then none
              else some (pyStrip form.email))
        · right
          refine ⟨s, hf, ?_, ?_⟩ <;>
            simp [edit_student, hadm, hf, hnm, hcf]
        · left
          constructor <;> simp [edit_student, hadm, hf, hnm, hcf]
      · left
        constructor <;> simp [edit_student, hadm, hf, hnm]

/-- C10: a blank (empty-after-strip) email is stored as NULL and never as
the empty string — the check-in flow and the admin edit flow both preserve
the no-empty-string invariant, the check-in create path stores `none`, the
successful edit path stores `none` — and since the email uniqueness
constraint only compares non-NULL values, two students with blank email
fields never conflict. -/
theorem blank_email_stored_null (db : DB) (hinv : noEmptyEmail db) :
    (∀ cfg smtpOk now form,
        noEmptyEmail (submit_checkin cfg smtpOk now db form).db) ∧
    (∀ cfg smtpOk now form,
        (pyStrip form.email == "") = true →
        db.students.find? (nameMatches (pyStrip form.name)) = none →
        (pyStrip form.name == "") = false →
        ∃ st, (submit_checkin cfg smtpOk now db form).student = some st ∧
          st.email = none) ∧
    (∀ ctx sid form, noEmptyEmail (edit_student ctx db sid form).1) ∧
    (∀ ctx sid form, (pyStrip form.email == "") = true →
        (edit_student ctx db sid form).2 = Resp.redirect →
        ∀ t ∈ (edit_student ctx db sid form).1.students,
          t.id = sid → t.email = none) ∧
    (∀ s t : Student, s.email = none → ¬ emailConflict s t) := by
  refine ⟨?_, ?_, ?_, ?_, ?_⟩
  · intro cfg smtpOk now form
    by_cases hname : (pyStrip form.name == "") = true
    · simp only [submit_checkin, hname, if_true]
      exact hinv
    · rw [Bool.not_eq_true] at hname
      simp only [submit_checkin, hname, Bool.false_eq_true, if_false]
      intro t ht
      rw [check_and_notify_db] at ht
      refine foldl_applyEvent_emailsOk _ _ ?_ ?_ t ht
      · rw [markAttendance_students]
        exact (resolveStudent_emailsOk db _ _ hinv).1
      · intro s' hs'
        have := trace_commit_fields _ _ _ _ _ _ hs'
        rw [this.2.2]
        exact (resolveStudent_emailsOk db _ _ hinv).2
  · intro cfg smtpOk now form he hf hname
    refine ⟨(resolveStudent db (pyStrip form.name) (pyStrip form.email)).2,
      submit_checkin_student cfg smtpOk now db form hname, ?_⟩
    unfold resolveStudent
    rw [hf]
    simp [he]
  · intro ctx sid form
    rcases edit_student_cases ctx db sid form with ⟨hdb, _⟩ | ⟨s, hf, _, hstud⟩
    · intro t ht
      rw [hdb] at ht
      exact hinv t ht
    · intro t ht
      rw [hstud] at ht
      rcases List.mem_map.mp ht with ⟨u, hu, rfl⟩
      split
      · split
        · exact fun hc => Option.noConfusion hc
        · rename_i hcond
          intro hc
          rw [Option.some.inj hc] at hcond
          simp at hcond
      · exact hinv u hu
  · intro ctx sid form he hresp
    rcases edit_student_cases ctx db sid form with ⟨_, hne⟩ | ⟨s, hf, _, hstud⟩
    · exact absurd hresp hne
    · have hsid : s.id = sid := by
        have := List.find?_some hf
        simpa using this
      intro t ht htid
      rw [hstud] at ht
      rcases List.mem_map.mp ht with ⟨u, hu, rfl⟩
      by_cases hid : u.id = s.id
      · rw [if_pos hid]
        have he' : pyStrip form.email = "" := by simpa using he
        simp [he']
      · rw [if_neg hid] at htid
        exact absurd (htid.trans hsid.symm) hid
  · rintro s t hs ⟨e, he1, he2⟩
    rw [hs] at he1
    cases he1

theorem blank_email_stored_null_witness :
    noEmptyEmail exDbC10 ∧
      (pyStrip exFormC10.email == "") = true ∧
      ∃ st, (submit_checkin ⟨none, 0, none, none, none⟩ true 4 exDbC10
          exFormC10).student = some st ∧ st.email = none :=
  ⟨by decide, by decide,
   (blank_email_stored_null exDbC10 (by decide)).2.1
     ⟨none, 0, none, none, none⟩ true 4 exFormC10
     (by decide) (by decide) (by decide)⟩

/-! ## Claim C4: lemmas about the attendance pair count -/

/-- A list that is pairwise-`False` has at most one element. -/
theorem length_le_one_of_pairwise_false {α : Type} {l : List α}
    (h : l.Pairwise (fun _ _ => False)) : l.length ≤ 1 := by
  cases l with
  | nil => simp
  | cons a l =>
      cases l with
      | nil => simp
      | cons b l =>
          rcases List.pairwise_cons.mp h with ⟨hab, _⟩
          exact absurd (hab b (List.mem_cons_self b l)) not_false

/-- Under the uniqueness constraint, any pair has at most one attendance
row. -/
theorem pairCount_le_one (db : DB) (hu : attendanceKeysUnique db)
    (x y : Nat) : pairCount db x y ≤ 1 := by
  unfold pairCount
  refine length_le_one_of_pairwise_false ?_
  have hpw := List.Pairwise.sublist
    (List.filter_sublist (l := db.attendances)
      (p := fun a => a.student_id == x && a.session_id == y)) hu
  have := List.Pairwise.and_mem.mp hpw
  refine this.imp ?_
  rintro a b ⟨ha, hb, hab⟩
  have ha' := List.of_mem_filter ha
  have hb' := List.of_mem_filter hb
  simp only [Bool.and_eq_true, beq_iff_eq] at ha' hb'
  rcases hab with h | h
  · exact h (ha'.1.trans hb'.1.symm)
  · exact h (ha'.2.trans hb'.2.symm)

/-- `pairCount` only reads the attendance table. -/
theorem pairCount_congr (db₁ db₂ : DB) (x y : Nat)
    (h : db₁.attendances = db₂.attendances) :
    pairCount db₁ x y = pairCount db₂ x y := by
  unfold pairCount
  rw [h]

/-- After the marking step there is exactly one row for the pair, provided
there was at most one before. -/
theorem pairCount_markAttendance (db : DB) (x y now : Nat)
    (h : pairCount db x y ≤ 1) :
    pairCount (markAttendance db x y now) x y = 1 := by
  unfold markAttendance
  split
  · rename_i hany
    rcases List.any_eq_true.mp hany with ⟨a, ha, hpa⟩
    have h1 : 1 ≤ pairCount db x y := by
      unfold pairCount
      have hmem : a ∈ db.attendances.filter
          (fun a => a.student_id == x && a.session_id == y) :=
        List.mem_filter.mpr ⟨ha, hpa⟩
      have := (List.singleton_sublist.mpr hmem).length_le
      simpa using this
    omega
  · rename_i hany
    have h0 : db.attendances.filter
        (fun a => a.student_id == x && a.session_id == y) = [] := by
      rw [List.filter_eq_nil_iff]
      intro a ha
      have hany' : (db.attendances.any
          (fun a => a.student_id == x && a.session_id == y)) = false :=
        eq_false_of_ne_true hany
      exact List.any_eq_false.mp hany' a ha
    unfold pairCount
    dsimp only
    rw [List.filter_append, h0]
    simp

/-- Marking is a no-op when a row for the pair already exists. -/
theorem markAttendance_noop (db : DB) (x y now : Nat)
    (h : 0 < pairCount db x y) : markAttendance db x y now = db := by
  have hany : (db.attendances.any
      (fun a => a.student_id == x && a.session_id == y)) = true := by
    unfold pairCount at h
    rcases hl : db.attendances.filter
        (fun a => a.student_id == x && a.session_id == y) with _ | ⟨a, rest⟩
    · rw [hl] at h
      simp at h
    · have ha : a ∈ db.attendances.filter
          (fun a => a.student_id == x && a.session_id == y) := by
        rw [hl]
        exact List.mem_cons_self a rest
      have := List.mem_filter.mp ha
      exact List.any_eq_true.mpr ⟨a, this.1, this.2⟩
  unfold markAttendance
  rw [if_pos hany]

/-! ## Claim C4: lookup stability across a check-in

`submit_checkin` resolves the student by a case-insensitive name match; the
only parts of the student table that matter for that lookup are ids and
names, which `nameKeys` projects out. -/

/-- The name lookup is determined by the `(id, name)` projection. -/
theorem find?_nameMatches_congr (n : String) (l₁ l₂ : List Student)
    (h : nameKeys l₁ = nameKeys l₂) :
    Option.map (fun t : Student => (t.id, t.name)) (l₁.find? (nameMatches n)) =
      Option.map (fun t : Student => (t.id, t.name)) (l₂.find? (nameMatches n)) := by
  induction l₁ generalizing l₂ with
  | nil =>
      cases l₂ with
      | nil => rfl
      | cons b l => simp [nameKeys] at h
  | cons a l ih =>
      cases l₂ with
      | nil => simp [nameKeys] at h
      | cons b l₂ =>
          simp only [nameKeys, List.map_cons, List.cons.injEq] at h
          have hid : a.id = b.id := by
            have := congrArg Prod.fst h.1
            simpa using this
          have hnm : a.name = b.name := by
            have := congrArg Prod.snd h.1
            simpa using this
          have hp : nameMatches n a = nameMatches n b := by
            unfold nameMatches
            rw [hnm]
          cases hpa : nameMatches n a
          · have hpb : nameMatches n b = false := hp ▸ hpa
            rw [List.find?_cons_of_neg _ (by simp [hpa]),
              List.find?_cons_of_neg _ (by simp [hpb])]
            exact ih l₂ h.2
          · have hpb : nameMatches n b = true := hp ▸ hpa
            rw [List.find?_cons_of_pos _ hpa, List.find?_cons_of_pos _ hpb]
            simp [hid, hnm]

/-- Replacing the first match with a student of the same id and name keeps
the `(id, name)` projection. -/
theorem nameKeys_replaceFirst (p : Student → Bool) (s s' : Student)
    (l : List Student) (hf : l.find? p = some s)
    (hid : s'.id = s.id) (hnm : s'.name = s.name) :
    nameKeys (replaceFirst p s' l) = nameKeys l := by
  induction l with
  | nil => simp at hf
  | cons a l ih =>
      unfold replaceFirst
      cases hpa : p a
      · rw [if_neg (by simp [hpa])]
        have hf' : l.find? p = some s := by
          rwa [List.find?_cons_of_neg _ (by simp [hpa])] at hf
        have hrec := ih hf'
        simp only [nameKeys, List.map_cons] at hrec ⊢
        rw [hrec]
      · rw [if_pos rfl]
        have ha : a = s := by
          have := List.find?_cons_of_pos (l := l) hpa
          rw [this] at hf
          exact Option.some.inj hf
        subst ha
        simp [nameKeys, hid, hnm]

/-- Folding commits keeps the `(id, name)` projection, provided every
committed snapshot has the id and name of the student being processed and
the table is name-consistent at that id. -/
theorem foldl_applyEvent_nameKeys (tr : List Event) (db : DB)
    (stId : Nat) (stName : String)
    (htr : ∀ s', Event.commit s' ∈ tr → s'.id = stId ∧ s'.name = stName)
    (hdb : ∀ t ∈ db.students, t.id = stId → t.name = stName) :
    nameKeys ((tr.foldl applyEvent db).students) = nameKeys db.students := by
  induction tr generalizing db with
  | nil => rfl
  | cons e tr ih =>
      rw [List.foldl_cons]
      have step : nameKeys ((applyEvent db e).students) = nameKeys db.students ∧
          (∀ t ∈ (applyEvent db e).students, t.id = stId → t.name = stName) := by
        cases e with
        | emailSend r res => exact ⟨rfl, hdb⟩
        | commit s'' =>
            have hs'' := htr s'' (List.mem_cons_self _ _)
            constructor
            · show nameKeys (db.students.map
                  fun t => if t.id == s''.id then s'' else t) = _
              unfold nameKeys
              rw [List.map_map]
              refine List.map_congr_left ?_
              intro t ht
              simp only [Function.comp_apply]
              split
              · rename_i hidt
                have h1 : t.id = s''.id := by simpa using hidt
                have h2 : t.name = stName := hdb t ht (h1.trans hs''.1)
                rw [Prod.mk.injEq]
                exact ⟨h1.symm, hs''.2.trans h2.symm⟩
              · rfl
            · intro t ht h1
              rcases List.mem_map.mp ht with ⟨u, hu, rfl⟩
              revert h1
              split
              · intro _
                exact hs''.2
              · intro h1
                exact hdb u hu h1
      rw [ih (applyEvent db e)
        (fun s' hs' => htr s' (List.mem_cons_of_mem _ hs')) step.2, step.1]

/-- The status transition keeps the `(id, name)` projection of the student
table whenever the table is name-consistent at the processed student's
id. -/
theorem check_and_notify_db_nameKeys (cfg : EmailConfig) (smtpOk : Bool)
    (now : Nat) (db : DB) (st : Student)
    (hdb : ∀ t ∈ db.students, t.id = st.id → t.name = st.name) :
    nameKeys ((check_and_notify_db cfg smtpOk now db st).students) =
      nameKeys db.students := by
  unfold check_and_notify_db
  refine foldl_applyEvent_nameKeys _ _ st.id st.name ?_ hdb
  intro s' hs'
  have := trace_commit_fields _ _ _ _ _ _ hs'
  exact ⟨this.1, this.2.1⟩

/-- `resolveStudent` on a missing name: the new student row is appended. -/
theorem resolveStudent_none (db : DB) (n e : String)
    (hf : db.students.find? (nameMatches n) = none) :
    resolveStudent db n e =
      ({ db with
          students := db.students ++
            [{ id := db.nextStudentId, name := n,
               email := if e == "" then none else some e,
               active := true, last_notified_at := none }],
          nextStudentId := db.nextStudentId + 1 },
       { id := db.nextStudentId, name := n,
         email := if e == "" then none else some e,
         active := true, last_notified_at := none }) := by
  unfold resolveStudent
  rw [hf]

/-- `resolveStudent` on a found student keeps its id and name and the
`(id, name)` projection of the table. -/
theorem resolveStudent_some_id_name (db : DB) (n e : String) (s : Student)
    (hf : db.students.find? (nameMatches n) = some s) :
    (resolveStudent db n e).2.id = s.id ∧
      (resolveStudent db n e).2.name = s.name ∧
      nameKeys ((resolveStudent db n e).1.students) = nameKeys db.students := by
  unfold resolveStudent
  rw [hf]
  dsimp only
  split
  · exact ⟨rfl, rfl, nameKeys_replaceFirst _ s _ _ hf rfl rfl⟩
  · exact ⟨rfl, rfl, rfl⟩

/-- After resolution, the student table is name-consistent at the resolved
student's id (primary keys being sane). -/
theorem resolveStudent_name_consistent (db : DB) (n e : String)
    (hid : studentIdsOk db) :
    ∀ t ∈ (resolveStudent db n e).1.students,
      t.id = (resolveStudent db n e).2.id →
      t.name = (resolveStudent db n e).2.name := by
  rcases hf : db.students.find? (nameMatches n) with _ | s
  · rw [resolveStudent_none db n e hf]
    intro t ht hteq
    dsimp only at ht hteq ⊢
    rcases List.mem_append.mp ht with h1 | h1
    · exact absurd hteq (Nat.ne_of_lt (hid.2 t h1))
    · rcases List.mem_singleton.mp h1 with rfl
      rfl
  · have hs_mem : s ∈ db.students := List.mem_of_find?_eq_some hf
    unfold resolveStudent
    rw [hf]
    dsimp only
    split
    · intro t ht hteq
      rcases mem_replaceFirst ht with rfl | h1
      · rfl
      · have : t = s := List.inj_on_of_nodup_map hid.1 h1 hs_mem hteq
        rw [this]
    · intro t ht hteq
      have : t = s := List.inj_on_of_nodup_map hid.1 ht hs_mem hteq
      rw [this]

/-- A check-in with a valid name keeps the `(id, name)` projection of the
student table equal to the one right after resolution. -/
theorem submit_checkin_nameKeys (cfg : EmailConfig) (smtpOk : Bool)
    (now : Nat) (db : DB) (form : CheckinForm)
    (hname : (pyStrip form.name == "") = false) (hid : studentIdsOk db) :
    nameKeys ((submit_checkin cfg smtpOk now db form).db.students) =
      nameKeys
        ((resolveStudent db (pyStrip form.name) (pyStrip form.email)).1.students) := by
  simp only [submit_checkin, hname, Bool.false_eq_true, if_false]
  refine (check_and_notify_db_nameKeys _ _ _ _ _ ?_).trans ?_
  · rw [markAttendance_students]
    exact resolveStudent_name_consistent db _ _ hid
  · rw [markAttendance_students]

/-- After a successful check-in, looking the same name up again finds a
student with the same id as the one just resolved. -/
theorem submit_checkin_lookup (cfg : EmailConfig) (smtpOk : Bool) (now : Nat)
    (db : DB) (form : CheckinForm)
    (hname : (pyStrip form.name == "") = false) (hid : studentIdsOk db) :
    ∃ s₂, (submit_checkin cfg smtpOk now db form).db.students.find?
        (nameMatches (pyStrip form.name)) = some s₂ ∧
      s₂.id =
        (resolveStudent db (pyStrip form.name) (pyStrip form.email)).2.id := by
  have hkeys := submit_checkin_nameKeys cfg smtpOk now db form hname hid
  have hcongr := find?_nameMatches_congr (pyStrip form.name) _ _ hkeys
  rcases hf : db.students.find? (nameMatches (pyStrip form.name)) with _ | s
  · have hres := resolveStudent_none db (pyStrip form.name) (pyStrip form.email) hf
    have hfind2 : (resolveStudent db (pyStrip form.name)
          (pyStrip form.email)).1.students.find?
        (nameMatches (pyStrip form.name)) =
        some { id := db.nextStudentId, name := pyStrip form.name,
               email := if pyStrip form.email == "" then none
                 else some (pyStrip form.email),
               active := true, last_notified_at := none } := by
      rw [hres]
      dsimp only
      rw [List.find?_append, hf]
      have hp : nameMatches (pyStrip form.name)
          { id := db.nextStudentId, name := pyStrip form.name,
            email := if pyStrip form.email == "" then none
              else some (pyStrip form.email),
            active := true, last_notified_at := none } = true := by
        unfold nameMatches
        exact beq_self_eq_true _
      rw [List.find?_cons_of_pos _ hp]
      rfl
    rw [hfind2] at hcongr
    rcases hfd : (submit_checkin cfg smtpOk now db form).db.students.find?
        (nameMatches (pyStrip form.name)) with _ | s₂
    · rw [hfd] at hcongr
      simp at hcongr
    · rw [hfd] at hcongr
      simp only [Option.map_some'] at hcongr
      have hpair := Option.some.inj hcongr
      refine ⟨s₂, rfl, ?_⟩
      have : s₂.id = db.nextStudentId := by
        have := congrArg Prod.fst hpair
        simpa using this
      rw [this, hres]
  · have hres := resolveStudent_some_id_name db (pyStrip form.name)
      (pyStrip form.email) s hf
    have hcongr2 := find?_nameMatches_congr (pyStrip form.name) _ _ hres.2.2
    rw [hf] at hcongr2
    have htotal := hcongr.trans hcongr2
    rcases hfd : (submit_checkin cfg smtpOk now db form).db.students.find?
        (nameMatches (pyStrip form.name)) with _ | s₂
    · rw [hfd] at htotal
      simp at htotal
    · rw [hfd] at htotal
      simp only [Option.map_some'] at htotal
      have hpair := Option.some.inj htotal
      refine ⟨s₂, rfl, ?_⟩
      have h2 : s₂.id = s.id := by
        have := congrArg Prod.fst hpair
        simpa using this
      rw [h2, hres.1]

/-- C4: check-in is idempotent on attendance.  With a valid name and a sane
database, the first check-in leaves exactly one Attendance row for the
resolved student and the session; a second identical check-in inserts no
row (the attendance table is unchanged, the pair count stays 1) while the
status transition is still invoked. -/
theorem checkin_idempotent (cfg : EmailConfig) (smtpOk smtpOk' : Bool)
    (now now' : Nat) (db : DB) (form : CheckinForm)
    (hname : (pyStrip form.name == "") = false)
    (hu : attendanceKeysUnique db) (hid : studentIdsOk db) :
    ∃ s₁, (submit_checkin cfg smtpOk now db form).student = some s₁ ∧
      pairCount (submit_checkin cfg smtpOk now db form).db s₁.id
        form.session_id = 1 ∧
      (submit_checkin cfg smtpOk' now'
          (submit_checkin cfg smtpOk now db form).db form).db.attendances =
        (submit_checkin cfg smtpOk now db form).db.attendances ∧
      pairCount (submit_checkin cfg smtpOk' now'
          (submit_checkin cfg smtpOk now db form).db form).db s₁.id
        form.session_id = 1 ∧
      (submit_checkin cfg smtpOk' now'
          (submit_checkin cfg smtpOk now db form).db form).transitionInvoked
        = true := by
  have hatt1 := submit_checkin_attendances cfg smtpOk now db form hname
  have pc1 : pairCount (submit_checkin cfg smtpOk now db form).db
      (resolveStudent db (pyStrip form.name) (pyStrip form.email)).2.id
      form.session_id = 1 := by
    rw [pairCount_congr _ _ _ _ hatt1]
    refine pairCount_markAttendance _ _ _ _ ?_
    rw [pairCount_congr _ db _ _ (resolveStudent_attendances db _ _)]
    exact pairCount_le_one db hu _ _
  obtain ⟨s₂, hfd2, hids⟩ := submit_checkin_lookup cfg smtpOk now db form hname hid
  have hres2 := resolveStudent_some_id_name
    (submit_checkin cfg smtpOk now db form).db (pyStrip form.name)
    (pyStrip form.email) s₂ hfd2
  have hatt2 := submit_checkin_attendances cfg smtpOk' now'
    (submit_checkin cfg smtpOk now db form).db form hname
  have hmark : markAttendance
      (resolveStudent (submit_checkin cfg smtpOk now db form).db
        (pyStrip form.name) (pyStrip form.email)).1
      (resolveStudent (submit_checkin cfg smtpOk now db form).db
        (pyStrip form.name) (pyStrip form.email)).2.id
      form.session_id now' =
      (resolveStudent (submit_checkin cfg smtpOk now db form).db
        (pyStrip form.name) (pyStrip form.email)).1 := by
    apply markAttendance_noop
    rw [pairCount_congr _ (submit_checkin cfg smtpOk now db form).db _ _
      (resolveStudent_attendances _ _ _)]
    rw [hres2.1, hids, pc1]
    omega
  rw [hmark] at hatt2
  rw [resolveStudent_attendances _ _ _] at hatt2
  refine ⟨(resolveStudent db (pyStrip form.name) (pyStrip form.email)).2,
    submit_checkin_student cfg smtpOk now db form hname, pc1, hatt2, ?_,
    submit_checkin_invokes cfg smtpOk' now' _ form hname⟩
  rw [pairCount_congr _ _ _ _ hatt2]
  exact pc1

theorem checkin_idempotent_witness :
    (pyStrip exFormC4.name == "") = false ∧ attendanceKeysUnique exDbC4 ∧
      studentIdsOk exDbC4 ∧
      ∃ s₁, (submit_checkin exCfgC4 true 3 exDbC4 exFormC4).student = some s₁ ∧
        pairCount (submit_checkin exCfgC4 true 3 exDbC4 exFormC4).db s₁.id
          exFormC4.session_id = 1 ∧
        (submit_checkin exCfgC4 true 4
            (submit_checkin exCfgC4 true 3 exDbC4 exFormC4).db
            exFormC4).db.attendances =
          (submit_checkin exCfgC4 true 3 exDbC4 exFormC4).db.attendances ∧
        pairCount (submit_checkin exCfgC4 true 4
            (submit_checkin exCfgC4 true 3 exDbC4 exFormC4).db exFormC4).db
          s₁.id exFormC4.session_id = 1 ∧
        (submit_checkin exCfgC4 true 4
            (submit_checkin exCfgC4 true 3 exDbC4 exFormC4).db
            exFormC4).transitionInvoked = true :=
  ⟨by decide, by decide, by decide,
   checkin_idempotent exCfgC4 true true 3 4 exDbC4 exFormC4
     (by decide) (by decide) (by decide)⟩

end Hangul
